import Mathlib

/-!
Verification of the browser client of a legal-document analysis tool.

The development shallowly embeds the reviewed JavaScript modules:

* `src/services/websocket.js` — the `AgentWebSocket` connection manager
  (connection state, linear-backoff reconnection, handler registry,
  message dispatch, `send`, `close`);
* `src/App.js` — top-level application state (timeline, approval request,
  selection and layout handling, outbound decision frames);
* `src/components/WorkflowPanel.js` — per-action decision collection;
* `src/components/DocumentPanel.js` and `src/components/FilePanel.js` —
  highlight derivation from the pending approval context, and the
  workspace file tree built from slash-delimited paths.

Pure functions of the source become Lean functions; stateful fragments
become explicit state-passing step functions.  JavaScript arrays are
lists, absent object fields are `Option`, JS sparse-array writes are
modelled explicitly, and handler functions are represented by an
identifier together with their observable behaviour (whether the call
throws on the dispatched message).
-/

set_option maxRecDepth 4000

/-! ## Connection manager: `AgentWebSocket` (src/services/websocket.js) -/

/-- Ready states of a browser WebSocket object (`CONNECTING`, `OPEN`,
`CLOSING`, `CLOSED`); `opened` stands for the JS constant `OPEN`. -/
inductive ReadyState where
  | connecting
  | opened
  | closing
  | closed
deriving DecidableEq, Repr

/-- Connection-related state of the `AgentWebSocket` class
(websocket.js lines 16-24).  `ws` is `none` when the `ws` field is
`null`; otherwise it carries the ready state of the held socket.
The handler registry is modelled separately (`Registry`) because its
entries are functions. -/
structure AgentWebSocket where
  ws : Option ReadyState
  isConnecting : Bool
  reconnectAttempts : Nat
  maxReconnectAttempts : Nat
deriving DecidableEq, Repr

/-- Constructor state (websocket.js lines 17-24): no socket, not
connecting, zero attempts, budget 5. -/
def AgentWebSocket.init : AgentWebSocket :=
  { ws := none, isConnecting := false, reconnectAttempts := 0, maxReconnectAttempts := 5 }

/-- Guard of `connect()` (websocket.js line 33): return early when
already connecting or the held socket is open. -/
def AgentWebSocket.connectGuard (m : AgentWebSocket) : Bool :=
  m.isConnecting || decide (m.ws = some ReadyState.opened)

/-- `connect()` (websocket.js lines 32-40): when the guard passes, set
`isConnecting` and install a fresh socket in the `CONNECTING` state. -/
def AgentWebSocket.connect (m : AgentWebSocket) : AgentWebSocket :=
  if m.connectGuard then m
  else { m with isConnecting := true, ws := some ReadyState.connecting }

/-- `onopen` (websocket.js lines 42-49): the socket becomes open,
`isConnecting` clears, `reconnectAttempts` resets to 0, and the internal
`connected` event is emitted.  The returned list is the emitted event
types. -/
def AgentWebSocket.onopen (m : AgentWebSocket) : AgentWebSocket × List String :=
  ({ m with ws := m.ws.map fun _ => ReadyState.opened,
            isConnecting := false,
            reconnectAttempts := 0 }, ["connected"])

/-- Observable effect of one `onclose` invocation: the reconnect delay
passed to `setTimeout`, if any, and the internally emitted event
types. -/
structure CloseEffect where
  scheduledDelayMs : Option Nat
  emitted : List String
deriving DecidableEq, Repr

/-- `onclose` (websocket.js lines 65-79): clear `isConnecting`; when
`reconnectAttempts < maxReconnectAttempts`, increment the counter and
schedule `connect` after `2000 * reconnectAttempts` ms (the incremented
value); otherwise emit `connection_failed`.  The held socket, when still
referenced, is now closed. -/
def AgentWebSocket.onclose (m : AgentWebSocket) : AgentWebSocket × CloseEffect :=
  let m0 := { m with isConnecting := false, ws := m.ws.map fun _ => ReadyState.closed }
  if m.reconnectAttempts < m.maxReconnectAttempts then
    ({ m0 with reconnectAttempts := m.reconnectAttempts + 1 },
     { scheduledDelayMs := some (2000 * (m.reconnectAttempts + 1)), emitted := [] })
  else
    (m0, { scheduledDelayMs := none, emitted := ["connection_failed"] })

/-- `send(message)` (websocket.js lines 131-137): transmit only when a
socket is held and its ready state is `OPEN`; otherwise log and do
nothing.  Returns the transmitted frame, if any, with the (unchanged)
state. -/
def AgentWebSocket.send (m : AgentWebSocket) (message : String) :
    AgentWebSocket × Option String :=
  if m.ws = some ReadyState.opened then (m, some message) else (m, none)

/-- `close()` (websocket.js lines 152-157): when a socket is held, close
it and null the field.  No flag suppressing the reconnection logic is
set. -/
def AgentWebSocket.close (m : AgentWebSocket) : AgentWebSocket :=
  match m.ws with
  | some _ => { m with ws := none }
  | none => m

/-- Cascade of close events when every scheduled reconnect attempt fails
again: the recursion fuel is the remaining retry budget, so the run
stops at the close event that exhausts it. -/
def closeCascadeGo : Nat → AgentWebSocket → List CloseEffect
  | 0, m => [(m.onclose).2]
  | Nat.succ k, m => (m.onclose).2 :: closeCascadeGo k (m.onclose).1

/-- All close effects produced from an unexpected closure of `m` when no
reconnect attempt ever reopens: each scheduled `connect` leads to the
next close event, until `onclose` schedules nothing. -/
def closeCascade (m : AgentWebSocket) : List CloseEffect :=
  closeCascadeGo (m.maxReconnectAttempts - m.reconnectAttempts) m

/-! ## Handler registry and dispatch -/

/-- A registered handler, identified by `id` (JS compares handler
functions by identity), together with its observable behaviour on the
dispatched message: whether the call throws. -/
structure Handler where
  id : Nat
  throws : Bool
deriving DecidableEq, Repr

/-- Run a list of handlers in registration order.  `catchEach` is true
when each call is wrapped in its own try/catch.  Returns the handlers
actually invoked, in order, and whether an exception propagated out of
the dispatch. -/
def runHandlers : Bool → List Handler → List Handler × Bool
  | _, [] => ([], false)
  | catchEach, h :: rest =>
    if h.throws && !catchEach then ([h], true)
    else
      let r := runHandlers catchEach rest
      (h :: r.1, r.2)

/-- Dispatch of an inbound frame, `handleMessage` (websocket.js lines
88-101): each handler call is wrapped in try/catch, so every handler
runs and nothing propagates. -/
def handleMessageRun (hs : List Handler) : List Handler × Bool :=
  runHandlers true hs

/-- Dispatch of an internally emitted event, `notifyHandlers`
(websocket.js lines 144-147): the `forEach` body has no try/catch. -/
def notifyHandlersRun (hs : List Handler) : List Handler × Bool :=
  runHandlers false hs

/-- The handler registry `messageHandlers`, keyed by message type. -/
def Registry : Type := String → List Handler

/-- `on(messageType, handler)` (websocket.js lines 110-124): push the
handler onto the list for its type, duplicates included. -/
def onStep (r : Registry) (ty : String) (h : Handler) : Registry :=
  fun t => if t = ty then r t ++ [h] else r t

/-- The cleanup closure returned by `on` (websocket.js lines 117-123):
`indexOf` finds the first occurrence of the handler, `splice` removes
that single element; absent handlers are a no-op. -/
def unsubscribeStep (r : Registry) (ty : String) (h : Handler) : Registry :=
  fun t => if t = ty then (r t).erase h else r t

/-! ## Helper lemmas for dispatch -/

/-- With per-handler try/catch, every handler is invoked in order and no
exception escapes the dispatch. -/
theorem runHandlers_caught (hs : List Handler) : runHandlers true hs = (hs, false) := by
  induction hs with
  | nil => rfl
  | cons h rest ih => simp [runHandlers, ih]

/-- Without try/catch, an exception propagates out of the dispatch
exactly when some handler throws. -/
theorem runHandlers_uncaught_snd (hs : List Handler) :
    (runHandlers false hs).2 = hs.any Handler.throws := by
  induction hs with
  | nil => rfl
  | cons h rest ih =>
    by_cases hth : h.throws <;> simp [runHandlers, hth, ih]

/-! ## Claim theorems for the connection manager -/

/-- Claim C1: starting from an open connection with zero prior attempts,
the cascade of unexpected closures with no successful reopen schedules
exactly five reconnect attempts with delays 2000, 4000, 6000, 8000,
10000 ms; the close event that follows the fifth failed attempt emits
`connection_failed` exactly once and schedules nothing further; and a
successful reopen (`onopen`) resets the attempt counter to 0. -/
theorem reconnect_linear_backoff_c1 :
    closeCascade { ws := some ReadyState.opened, isConnecting := false,
                   reconnectAttempts := 0, maxReconnectAttempts := 5 } =
      [{ scheduledDelayMs := some 2000, emitted := [] },
       { scheduledDelayMs := some 4000, emitted := [] },
       { scheduledDelayMs := some 6000, emitted := [] },
       { scheduledDelayMs := some 8000, emitted := [] },
       { scheduledDelayMs := some 10000, emitted := [] },
       { scheduledDelayMs := none, emitted := ["connection_failed"] }] ∧
    (closeCascade { ws := some ReadyState.opened, isConnecting := false,
                    reconnectAttempts := 0, maxReconnectAttempts := 5 }).countP
        (fun e => e.emitted.contains "connection_failed") = 1 ∧
    ∀ m : AgentWebSocket, (m.onopen).1.reconnectAttempts = 0 := by
  refine ⟨by decide, by decide, ?_⟩
  intro m
  simp [AgentWebSocket.onopen]

/-- Claim C2, counterexample: dispatching an internally emitted event
(`notifyHandlers`) to a throwing handler registered before a second
handler does not keep the claimed guarantee — it is false that the
exception stays inside the dispatch and the later handler still runs. -/
theorem notify_throw_c2_cex :
    ¬ ((notifyHandlersRun [⟨0, true⟩, ⟨1, false⟩]).2 = false ∧
       (⟨1, false⟩ : Handler) ∈ (notifyHandlersRun [⟨0, true⟩, ⟨1, false⟩]).1) := by
  decide

/-- Claim C2, amended: for inbound frame dispatch (`handleMessage`) a
throwing handler never prevents later-registered handlers and never
propagates out of the dispatch; but for internally emitted events
(`connected`, `error`, `connection_failed`, dispatched through
`notifyHandlers`) an exception propagates out of the dispatch exactly
when some subscribed handler throws. -/
theorem handler_exception_scope_c2 :
    ∀ hs : List Handler,
      handleMessageRun hs = (hs, false) ∧
      (notifyHandlersRun hs).2 = hs.any Handler.throws := by
  intro hs
  exact ⟨runHandlers_caught hs, runHandlers_uncaught_snd hs⟩

/-- Claim C3: evaluation at the failing input.  After `close()` on an
open connection with zero recorded attempts, the transport close event
that follows still runs the reconnection logic: it schedules a reconnect
after 2000 ms, and the scheduled `connect` call is not a no-op (the `ws`
field is `null`, so a fresh socket is created).  The code therefore does
not suppress reconnection after `close()`. -/
theorem close_then_reconnect_c3 :
    (AgentWebSocket.close { ws := some ReadyState.opened, isConnecting := false,
                            reconnectAttempts := 0, maxReconnectAttempts := 5 }).ws = none ∧
    ((AgentWebSocket.close { ws := some ReadyState.opened, isConnecting := false,
                             reconnectAttempts := 0, maxReconnectAttempts := 5 }).onclose).2.scheduledDelayMs
      = some 2000 ∧
    (((AgentWebSocket.close { ws := some ReadyState.opened, isConnecting := false,
                              reconnectAttempts := 0, maxReconnectAttempts := 5 }).onclose).1.connect
      ≠ ((AgentWebSocket.close { ws := some ReadyState.opened, isConnecting := false,
                                 reconnectAttempts := 0, maxReconnectAttempts := 5 }).onclose).1) := by
  refine ⟨by decide, by decide, by decide⟩

/-- Claim C8: `send` transmits the frame exactly when a socket is held
in the `OPEN` state, and in every case — in particular when not open —
it leaves the whole connection-manager state unchanged and returns
normally. -/
theorem send_only_when_open_c8 :
    ∀ (m : AgentWebSocket) (message : String),
      ((m.send message).2 = some message ↔ m.ws = some ReadyState.opened) ∧
      (m.send message).1 = m := by
  intro m message
  by_cases h : m.ws = some ReadyState.opened <;>
    simp [AgentWebSocket.send, h]

/-- Claim C10: registering the same handler twice for one message type
makes it run twice on each matching inbound frame, and calling one of
the unsubscribe closures removes exactly one occurrence, leaving the
handler subscribed once. -/
theorem duplicate_registration_c10 (r : Registry) (ty : String) (h : Handler)
    (hab : (r ty).count h = 0) :
    (handleMessageRun ((onStep (onStep r ty h) ty h) ty)).1.count h = 2 ∧
    ((unsubscribeStep (onStep (onStep r ty h) ty h) ty h) ty).count h = 1 := by
  have habs : h ∉ r ty := by
    intro hm
    exact absurd hab (by simpa using (List.count_pos_iff.2 hm).ne'
      )
  constructor
  · have : (onStep (onStep r ty h) ty h) ty = r ty ++ [h] ++ [h] := by
      simp [onStep]
    rw [this]
    simp [handleMessageRun, runHandlers_caught, List.count_append, hab]
  · have : (onStep (onStep r ty h) ty h) ty = r ty ++ ([h] ++ [h]) := by
      simp [onStep]
    simp only [unsubscribeStep, if_pos rfl, this]
    rw [List.erase_append_right _ (by simpa using habs)]
    simp [List.count_append, hab]

/-- Claim C10, witness: concrete registry with no prior registration of
the handler. -/
theorem duplicate_registration_c10_witness :
    (((fun _ : String => ([] : List Handler)) "agent_message").count ⟨7, false⟩ = 0) ∧
    ((handleMessageRun ((onStep (onStep (fun _ => []) "agent_message" ⟨7, false⟩)
        "agent_message" ⟨7, false⟩) "agent_message")).1.count ⟨7, false⟩ = 2 ∧
     ((unsubscribeStep (onStep (onStep (fun _ => []) "agent_message" ⟨7, false⟩)
        "agent_message" ⟨7, false⟩) "agent_message" ⟨7, false⟩) "agent_message").count ⟨7, false⟩ = 1) :=
  ⟨rfl, duplicate_registration_c10 (fun _ => []) "agent_message" ⟨7, false⟩ rfl⟩

/-! ## Shared approval data model (App.js, WorkflowPanel.js, panels) -/

/-- One document entry in `context.documents` of a `get_documents`
action: identifier plus its optional `significant_pages` field. -/
structure CtxDoc where
  doc_id : Nat
  significant_pages : Option (List Nat)
deriving DecidableEq, Repr

/-- One page entry in `context.pages` of a `get_page_text` action. -/
structure CtxPage where
  page_num : Nat
deriving DecidableEq, Repr

/-- The enrichment `context` attached to a pending action.  All fields
are optional: an absent JS property is `none`. -/
structure ActionContext where
  tool : Option String
  documents : Option (List CtxDoc)
  pages : Option (List CtxPage)
  file_path : Option String
deriving DecidableEq, Repr

/-- An agent-proposed action inside an `approval_required` frame; the
`arguments` value and the review configuration play no role in the
verified claims and are carried opaquely as a string. -/
structure AgentAction where
  tool_name : String
  arguments : Option String
  context : Option ActionContext
deriving DecidableEq, Repr

/-- Payload of an `approval_required` frame. -/
structure ApprovalData where
  actions : List AgentAction
  agent_messages : List String
deriving DecidableEq, Repr

/-! ## Application state (src/App.js) -/

/-- Kinds of timeline entries rendered in the workflow panel. -/
inductive MsgKind where
  | system
  | agent
  | user
  | error
deriving DecidableEq, Repr

/-- One entry of the `agentMessages` timeline (App.js handlers append
`{type, content, timestamp}` records; the timestamp is abstracted as a
number supplied by the caller). -/
structure TimelineEntry where
  kind : MsgKind
  content : String
  timestamp : Nat
deriving DecidableEq, Repr

/-- The App component state relevant to the claims (App.js lines
23-37). -/
structure AppState where
  connectionStatus : String
  selectedDocument : Option Nat
  selectedFile : Option Nat
  layoutMode : String
  agentMessages : List TimelineEntry
  approvalRequest : Option ApprovalData
deriving DecidableEq, Repr

/-- Initial App state (App.js lines 23-37). -/
def AppState.init : AppState :=
  { connectionStatus := "disconnected", selectedDocument := none, selectedFile := none,
    layoutMode := "default", agentMessages := [], approvalRequest := none }

/-- Append one timeline entry (`setAgentMessages(prev => [...prev, e])`). -/
def appendTimeline (st : AppState) (k : MsgKind) (content : String) (now : Nat) : AppState :=
  { st with agentMessages := st.agentMessages ++ [{ kind := k, content := content, timestamp := now }] }

/-- `handleConnected` (App.js lines 109-112). -/
def handleConnected (st : AppState) : AppState :=
  { st with connectionStatus := "connected" }

/-- `handleAnalysisStarted` (App.js lines 114-121). -/
def handleAnalysisStarted (st : AppState) (message : String) (now : Nat) : AppState :=
  appendTimeline st MsgKind.system message now

/-- `handleAgentMessage` (App.js lines 123-130). -/
def handleAgentMessage (st : AppState) (content : String) (now : Nat) : AppState :=
  appendTimeline st MsgKind.agent content now

/-- `handleApprovalRequired` (App.js lines 132-142). -/
def handleApprovalRequired (st : AppState) (data : ApprovalData) (now : Nat) : AppState :=
  appendTimeline { st with approvalRequest := some data }
    MsgKind.system "Waiting for your approval..." now

/-- `handleApprovalProcessed` (App.js lines 144-153): clear the pending
request, then append a system entry whose text is the message field. -/
def handleApprovalProcessed (st : AppState) (message : String) (now : Nat) : AppState :=
  appendTimeline { st with approvalRequest := none } MsgKind.system message now

/-- `handleAnalysisComplete` (App.js lines 155-162). -/
def handleAnalysisComplete (st : AppState) (message : String) (now : Nat) : AppState :=
  appendTimeline st MsgKind.system message now

/-- `handleError` (App.js lines 164-171): the entry text is
`data.message || 'An error occurred'`; an absent or empty (falsy)
message selects the fallback text. -/
def handleError (st : AppState) (message : Option String) (now : Nat) : AppState :=
  appendTimeline st MsgKind.error
    (match message with
     | some s => if s = "" then "An error occurred" else s
     | none => "An error occurred") now

/-- Inbound frames recognized by the registered App handlers (App.js
lines 61-67). -/
inductive InboundMsg where
  | connected (sessionId : Nat)
  | analysisStarted (message : String)
  | agentMessage (content : String)
  | approvalRequired (data : ApprovalData)
  | approvalProcessed (message : String)
  | analysisComplete (message : String)
  | errorMsg (message : Option String)
deriving DecidableEq, Repr

/-- Fan-out of one inbound frame to the matching registered handler. -/
def dispatchInbound (st : AppState) (msg : InboundMsg) (now : Nat) : AppState :=
  match msg with
  | InboundMsg.connected _ => handleConnected st
  | InboundMsg.analysisStarted m => handleAnalysisStarted st m now
  | InboundMsg.agentMessage c => handleAgentMessage st c now
  | InboundMsg.approvalRequired d => handleApprovalRequired st d now
  | InboundMsg.approvalProcessed m => handleApprovalProcessed st m now
  | InboundMsg.analysisComplete m => handleAnalysisComplete st m now
  | InboundMsg.errorMsg m => handleError st m now

/-! ## Selection and layout (src/App.js lines 215-246) -/

/-- `handleDocumentSelect` (App.js lines 215-218): store the selection
and unconditionally switch the layout mode to `document-view` — also
when called with `null` from the back-to-list button
(DocumentPanel.js lines 89-92). -/
def handleDocumentSelect (st : AppState) (doc : Option Nat) : AppState :=
  { st with selectedDocument := doc, layoutMode := "document-view" }

/-- `handleFileSelect` (App.js lines 227-230): store the selection and
unconditionally switch the layout mode to `file-edit`. -/
def handleFileSelect (st : AppState) (file : Option Nat) : AppState :=
  { st with selectedFile := file, layoutMode := "file-edit" }

/-- `getPanelSizes` (App.js lines 237-246): percentages for the left,
center and right panels as a function of the stored layout mode. -/
def getPanelSizes (layoutMode : String) : Nat × Nat × Nat :=
  if layoutMode = "document-view" then (40, 40, 20)
  else if layoutMode = "file-edit" then (20, 40, 40)
  else (20, 60, 20)

/-! ## Claim theorems C4 and C7 -/

/-- Claim C4: evaluation at the failing input.  Selecting a document and
then deselecting it through the back-to-list path
(`onDocumentSelect(null)`) leaves no selection in either view, yet the
stored layout mode remains `document-view`, so the panel widths stay at
40/40/20 instead of returning to 20/60/20; moreover selecting a file
while a document is selected yields widths 20/40/40 with the document
still selected, so the widths are not a function of the selections. -/
theorem deselect_layout_c4 :
    (handleDocumentSelect (handleDocumentSelect AppState.init (some 1)) none).selectedDocument
      = none ∧
    (handleDocumentSelect (handleDocumentSelect AppState.init (some 1)) none).selectedFile
      = none ∧
    getPanelSizes (handleDocumentSelect (handleDocumentSelect AppState.init (some 1)) none).layoutMode
      = (40, 40, 20) ∧
    getPanelSizes (handleDocumentSelect (handleDocumentSelect AppState.init (some 1)) none).layoutMode
      ≠ (20, 60, 20) ∧
    (handleFileSelect (handleDocumentSelect AppState.init (some 1)) (some 2)).selectedDocument
      = some 1 ∧
    getPanelSizes (handleFileSelect (handleDocumentSelect AppState.init (some 1)) (some 2)).layoutMode
      = (20, 40, 40) := by
  refine ⟨rfl, rfl, by decide, by decide, rfl, by decide⟩

/-- Claim C7: `approval_processed` clears the pending request and
appends exactly one system timeline entry carrying the message text; and
every inbound-message handler only ever appends to the timeline — the
entries already present are preserved unchanged, in place. -/
theorem approval_processed_append_c7 :
    ∀ (st : AppState) (message : String) (now : Nat),
      (handleApprovalProcessed st message now).approvalRequest = none ∧
      (handleApprovalProcessed st message now).agentMessages =
        st.agentMessages ++ [{ kind := MsgKind.system, content := message, timestamp := now }] ∧
      ∀ (msg : InboundMsg) (t : Nat),
        (dispatchInbound st msg t).agentMessages.take st.agentMessages.length
          = st.agentMessages := by
  intro st message now
  refine ⟨rfl, rfl, ?_⟩
  intro msg t
  cases msg <;>
    simp [dispatchInbound, handleConnected, handleAnalysisStarted, handleAgentMessage,
      handleApprovalRequired, handleApprovalProcessed, handleAnalysisComplete, handleError,
      appendTimeline, List.take_left]

/-! ## Decision collection (src/components/WorkflowPanel.js) -/

/-- JavaScript array index assignment `arr[i] = v`: writing past the end
extends the array with holes (`undefined`, modelled as `none`) so that
its length becomes `i + 1`; writing inside replaces the slot. -/
def setIdxJS {α : Type} (l : List (Option α)) (i : Nat) (v : α) : List (Option α) :=
  if i < l.length then l.set i (some v)
  else l ++ List.replicate (i - l.length) none ++ [some v]

/-- WorkflowPanel decision state: the `decisions` array (with possible
holes) and the frames handed to `onApprovalDecision` so far. -/
structure PanelSt where
  decisions : List (Option String)
  sentFrames : List (List (Option String))
deriving DecidableEq, Repr

/-- `handleActionDecision(index, decision)` (WorkflowPanel.js lines
590-600): copy the array, assign the slot, and send the batch as soon
as the array LENGTH equals the action count — the code never checks
that every slot is filled. -/
def handleActionDecision (numActions : Nat) (st : PanelSt) (i : Nat) (d : String) : PanelSt :=
  let nd := setIdxJS st.decisions i d
  if nd.length = numActions then
    { decisions := [], sentFrames := st.sentFrames ++ [nd] }
  else
    { st with decisions := nd }

/-- Run a sequence of per-action decision recordings from the initial
empty decision array. -/
def runDecisions (numActions : Nat) (calls : List (Nat × String)) : PanelSt :=
  calls.foldl (fun st c => handleActionDecision numActions st c.1 c.2) ⟨[], []⟩

/-- Claim C6: evaluation at the failing input.  With two pending actions
resolved out of order — index 1 first (`approve`), then index 0
(`reject`) — the length check fires after the very first recording: the
single `approval_decision` frame is sent with a hole (`undefined`) in
slot 0, and the decision later recorded for action 0 is never part of
any sent frame. -/
theorem premature_send_c6 :
    (runDecisions 2 [(1, "approve"), (0, "reject")]).sentFrames
      = [[none, some "approve"]] ∧
    (∀ f ∈ (runDecisions 2 [(1, "approve"), (0, "reject")]).sentFrames,
      some "reject" ∉ f) ∧
    (runDecisions 2 [(0, "approve"), (1, "reject")]).sentFrames
      = [[some "approve", some "reject"]] := by
  refine ⟨by decide, by decide, by decide⟩

/-! ## Highlight derivation (DocumentPanel.js, FilePanel.js) -/

/-- Document detail loaded for the viewer (`/api/documents/{id}`); only
the `significant_pages` field participates in highlighting. -/
structure DocDetail where
  doc_id : Nat
  significant_pages : Option (List Nat)
deriving DecidableEq, Repr

/-- The action handed to the document panel (App.js lines 273-275): the
first pending action whose tool name is `get_documents` or
`get_page_text`. -/
def docApprovalContext (req : Option ApprovalData) : Option AgentAction :=
  req.bind fun r =>
    r.actions.find? fun a =>
      a.tool_name = "get_documents" || a.tool_name = "get_page_text"

/-- The action handed to the file panel (App.js lines 298-300): the
first pending action whose tool name is `write_file` or `edit_file`. -/
def fileApprovalContext (req : Option ApprovalData) : Option AgentAction :=
  req.bind fun r =>
    r.actions.find? fun a =>
      a.tool_name = "write_file" || a.tool_name = "edit_file"

/-- Fallback highlighting with no usable approval context
(DocumentPanel.js lines 65-70): the legally significant pages of the
loaded document detail, when one is loaded; otherwise the effect sets
nothing. -/
def fallbackHighlight (documentDetail : Option DocDetail) : Option (List Nat) :=
  documentDetail.map fun dd => dd.significant_pages.getD []

/-- The highlighting effect of the document panel (DocumentPanel.js
lines 49-71) as the value it stores into `highlightedPages`: `some`
when the effect assigns, `none` when it leaves the previous state in
place.  The branch on `context.tool` mirrors the source: the
`get_documents` arm requires a present (truthy) `documents` field and
assigns only when the list is non-empty; the `get_page_text` arm
requires a present `pages` field and maps out the page numbers. -/
def computeDocHighlight (approvalContext : Option AgentAction)
    (documentDetail : Option DocDetail) : Option (List Nat) :=
  match approvalContext with
  | some a =>
    match a.context with
    | some c =>
      if c.tool = some "get_documents" ∧ c.documents.isSome then
        match c.documents with
        | some (d :: _) => some (d.significant_pages.getD [])
        | _ => none
      else if c.tool = some "get_page_text" ∧ c.pages.isSome then
        c.pages.map fun ps => ps.map CtxPage.page_num
      else none
    | none => fallbackHighlight documentDetail
  | none => fallbackHighlight documentDetail

/-- Truthiness of an optional string under JavaScript rules: present and
non-empty. -/
def truthyStr : Option String → Bool
  | some s => decide (s ≠ "")
  | none => false

/-- `isFileHighlighted(filePath)` (FilePanel.js lines 164-176): true
exactly when a pending `write_file`/`edit_file` action carries a truthy
`context.file_path` equal to the given path. -/
def isFileHighlighted (approvalContext : Option AgentAction) (filePath : String) : Bool :=
  match approvalContext with
  | none => false
  | some a =>
    match a.context with
    | none => false
    | some c =>
      if (a.tool_name == "write_file" || a.tool_name == "edit_file") && truthyStr c.file_path then
        c.file_path == some filePath
      else false

/-- Claim C5: highlight derivation is a pure function of the pending
action context.  For a `get_documents` context the highlighted pages
are exactly the `significant_pages` of the first listed document,
whatever documents follow; for a `get_page_text` context they are
exactly the page numbers named in the context; a pending
`write_file`/`edit_file` action highlights exactly the one file whose
path equals `context.file_path`; and with no matching pending action the
document view falls back to the legally significant pages of the loaded
document. -/
theorem highlight_derivation_c5 :
    (∀ (a : AgentAction) (c : ActionContext) (d : CtxDoc) (rest : List CtxDoc)
        (dd : Option DocDetail),
      a.context = some c → c.tool = some "get_documents" →
      c.documents = some (d :: rest) →
      computeDocHighlight (some a) dd = some (d.significant_pages.getD [])) ∧
    (∀ (a : AgentAction) (c : ActionContext) (ps : List CtxPage) (dd : Option DocDetail),
      a.context = some c → c.tool = some "get_page_text" → c.pages = some ps →
      computeDocHighlight (some a) dd = some (ps.map CtxPage.page_num)) ∧
    (∀ (a : AgentAction) (c : ActionContext) (fp : String),
      (a.tool_name = "write_file" ∨ a.tool_name = "edit_file") →
      a.context = some c → c.file_path = some fp → fp ≠ "" →
      ∀ path : String, isFileHighlighted (some a) path = true ↔ path = fp) ∧
    (∀ dd : DocDetail,
      computeDocHighlight none (some dd) = some (dd.significant_pages.getD [])) := by
  refine ⟨?_, ?_, ?_, ?_⟩
  · intro a c d rest dd hctx htool hdocs
    simp [computeDocHighlight, hctx, htool, hdocs]
  · intro a c ps dd hctx htool hpages
    simp [computeDocHighlight, hctx, htool, hpages]
  · intro a c fp htn hctx hfp hne path
    obtain ⟨tn, args, actx⟩ := a
    simp only at hctx
    subst hctx
    obtain ⟨tool, docs, pgs, fpath⟩ := c
    simp only at hfp
    subst hfp
    have run : ∀ tn0 : String,
        (tn0 == "write_file" || tn0 == "edit_file") = true →
        (isFileHighlighted (some ⟨tn0, args, some ⟨tool, docs, pgs, some fp⟩⟩) path = true
          ↔ path = fp) := by
      intro tn0 hcond
      simp only [isFileHighlighted, truthyStr]
      rw [if_pos]
      · constructor
        · intro hb
          exact (of_decide_eq_true hb).symm
        · intro hp
          subst hp
          simp
      · simp [hcond, hne]
    rcases htn with h | h <;> simp only at h <;> subst h <;>
      exact run _ (by simp)
  · intro dd
    simp [computeDocHighlight, fallbackHighlight]

/-- Claim C5, witness: concrete instantiations of all four parts — a
`get_documents` context listing two documents highlights the pages 2, 3
of the first only; a `get_page_text` context highlights pages 4 and 7;
a `write_file` action on `/report/r.md` highlights exactly that path;
with no pending action the fallback highlights the detail pages. -/
theorem highlight_derivation_c5_witness :
    computeDocHighlight
        (some { tool_name := "get_documents", arguments := none,
                context := some { tool := some "get_documents",
                                  documents := some [{ doc_id := 1, significant_pages := some [2, 3] },
                                                     { doc_id := 2, significant_pages := some [9] }],
                                  pages := none, file_path := none } })
        none = some [2, 3] ∧
    computeDocHighlight
        (some { tool_name := "get_page_text", arguments := none,
                context := some { tool := some "get_page_text", documents := none,
                                  pages := some [{ page_num := 4 }, { page_num := 7 }],
                                  file_path := none } })
        none = some [4, 7] ∧
    (isFileHighlighted
        (some { tool_name := "write_file", arguments := none,
                context := some { tool := some "write_file", documents := none,
                                  pages := none, file_path := some "/report/r.md" } })
        "/report/r.md" = true ↔ "/report/r.md" = "/report/r.md") ∧
    computeDocHighlight none (some { doc_id := 3, significant_pages := some [1, 5] })
      = some [1, 5] :=
  ⟨highlight_derivation_c5.1
      { tool_name := "get_documents", arguments := none,
        context := some { tool := some "get_documents",
                          documents := some [{ doc_id := 1, significant_pages := some [2, 3] },
                                             { doc_id := 2, significant_pages := some [9] }],
                          pages := none, file_path := none } }
      { tool := some "get_documents",
        documents := some [{ doc_id := 1, significant_pages := some [2, 3] },
                           { doc_id := 2, significant_pages := some [9] }],
        pages := none, file_path := none }
      { doc_id := 1, significant_pages := some [2, 3] }
      [{ doc_id := 2, significant_pages := some [9] }]
      none rfl rfl rfl,
   highlight_derivation_c5.2.1
      { tool_name := "get_page_text", arguments := none,
        context := some { tool := some "get_page_text", documents := none,
                          pages := some [{ page_num := 4 }, { page_num := 7 }],
                          file_path := none } }
      { tool := some "get_page_text", documents := none,
        pages := some [{ page_num := 4 }, { page_num := 7 }], file_path := none }
      [{ page_num := 4 }, { page_num := 7 }]
      none rfl rfl rfl,
   highlight_derivation_c5.2.2.1
      { tool_name := "write_file", arguments := none,
        context := some { tool := some "write_file", documents := none,
                          pages := none, file_path := some "/report/r.md" } }
      { tool := some "write_file", documents := none,
        pages := none, file_path := some "/report/r.md" }
      "/report/r.md" (Or.inl rfl) rfl rfl (by decide) "/report/r.md",
   highlight_derivation_c5.2.2.2 { doc_id := 3, significant_pages := some [1, 5] }⟩

/-! ## Workspace file tree (FilePanel.js lines 52-85) -/

/-- A workspace file as delivered to the panel: slash-delimited path,
size and modification time. -/
structure WFile where
  path : String
  size : Nat
  modified : Nat
deriving DecidableEq, Repr

/-- A file entry stored in the tree (`current.files.push({name, path,
size, modified})`, FilePanel.js lines 65-70). -/
structure TreeFile where
  name : String
  path : String
  size : Nat
  modified : Nat
deriving DecidableEq, Repr

/-- The nested-object tree built by `buildFileTree`: a node carries its
`dirs` map (insertion-ordered string keys) and its `files` list; absent
JS fields are empty collections. -/
inductive FileTree where
  | node (dirs : List (String × FileTree)) (files : List TreeFile)
deriving Repr

/-- A freshly created node (`{}`). -/
def FileTree.empty : FileTree := FileTree.node [] []

/-- Get-or-create update of the `dirs` map at one key (FilePanel.js
lines 73-79): an existing key keeps its position, a new key is appended
with a fresh empty node before the update function runs. -/
def updateAssoc (ds : List (String × FileTree)) (p : String) (f : FileTree → FileTree) :
    List (String × FileTree) :=
  match ds with
  | [] => [(p, f FileTree.empty)]
  | (q, t) :: rest => if q = p then (q, f t) :: rest else (q, t) :: updateAssoc rest p f

/-- Insertion of one file along its (already split and filtered) path
segments (the `parts.forEach` walk, FilePanel.js lines 59-81): no
segments touch nothing, the last segment appends a file entry, every
earlier segment descends into (or creates) a directory node. -/
def insertPath : FileTree → List String → WFile → FileTree
  | t, [], _ => t
  | FileTree.node dirs files, [p], f =>
    FileTree.node dirs
      (files ++ [{ name := p, path := f.path, size := f.size, modified := f.modified }])
  | FileTree.node dirs files, p :: q :: rest, f =>
    FileTree.node (updateAssoc dirs p (fun sub => insertPath sub (q :: rest) f)) files

/-- Lookup in the `dirs` map of a node. -/
def lookupDir : List (String × FileTree) → String → Option FileTree
  | [], _ => none
  | (q, t) :: rest, p => if q = p then some t else lookupDir rest p

/-- The `files` list of the node reached by a directory path, or `[]`
when no such node exists. -/
def filesAt : FileTree → List String → List TreeFile
  | FileTree.node _ files, [] => files
  | FileTree.node dirs _, p :: rest =>
    match lookupDir dirs p with
    | some t => filesAt t rest
    | none => []

/-- Whether the node reached by a directory path exists in the tree
(the root always does: it is the tree object itself). -/
def hasDir : FileTree → List String → Bool
  | _, [] => true
  | FileTree.node dirs _, p :: rest =>
    match lookupDir dirs p with
    | some t => hasDir t rest
    | none => false

/-- JavaScript `str.split('/')` on the character list: separators fall
away and the runs between them (possibly empty) are kept, so `""` gives
`[""]` and `"/"` gives `["", ""]`. -/
def splitSlashAux : List Char → List Char → List String
  | [], acc => [String.mk acc.reverse]
  | c :: cs, acc =>
    if c = '/' then String.mk acc.reverse :: splitSlashAux cs []
    else splitSlashAux cs (c :: acc)

/-- JavaScript `path.split('/')`. -/
def splitSlash (s : String) : List String := splitSlashAux s.data []

/-- `file.path.split('/').filter(p => p)` (FilePanel.js line 56): the
non-empty segments of a path. -/
def segsOf (path : String) : List String :=
  (splitSlash path).filter (fun s => s ≠ "")

/-- `buildFileTree(files)` (FilePanel.js lines 52-85): fold every file
into an initially empty tree. -/
def buildFileTree (files : List WFile) : FileTree :=
  files.foldl (fun t f => insertPath t (segsOf f.path) f) FileTree.empty

/-- Split a non-empty segment list into the directory part and the
final (file-name) segment; `none` for the empty list. -/
def splitInit : List String → Option (List String × String)
  | [] => none
  | [p] => some ([], p)
  | p :: q :: rest =>
    match splitInit (q :: rest) with
    | some r => some (p :: r.1, r.2)
    | none => none

/-- Whether the first list is a strict prefix of the second, i.e. the
second list traverses the first as a directory path and continues. -/
def strictPrefixB : List String → List String → Bool
  | _, [] => false
  | [], _ :: _ => true
  | a :: as, b :: bs => a == b && strictPrefixB as bs

/-- The tree entry contributed by one file at one directory path: a file
whose segments split as `d ++ [name]` contributes its entry at node `d`
and nowhere else; a file with no segments contributes nothing. -/
def slotEntry (segs : List String) (f : WFile) (d : List String) : Option TreeFile :=
  match splitInit segs with
  | some r =>
    if r.1 = d then
      some { name := r.2, path := f.path, size := f.size, modified := f.modified }
    else none
  | none => none

/-! ## Helper lemmas for the file tree -/

/-- A non-empty segment list always splits. -/
theorem splitInit_some (x : String) (l : List String) : (splitInit (x :: l)).isSome := by
  induction l generalizing x with
  | nil => simp [splitInit]
  | cons y ys ih =>
    obtain ⟨r, hr⟩ := Option.isSome_iff_exists.mp (ih y)
    simp [splitInit, hr]

/-- Lookup after a get-or-create update: the updated key holds the
update of the previous (or fresh) subtree, other keys are untouched. -/
theorem lookupDir_updateAssoc (ds : List (String × FileTree)) (p a : String)
    (f : FileTree → FileTree) :
    lookupDir (updateAssoc ds p f) a =
      if a = p then some (f ((lookupDir ds p).getD FileTree.empty)) else lookupDir ds a := by
  induction ds with
  | nil =>
    by_cases h : a = p <;> simp [updateAssoc, lookupDir, h, Ne.symm]
  | cons hd tl ih =>
    obtain ⟨q, t⟩ := hd
    by_cases hqp : q = p <;> by_cases hqa : q = a <;> by_cases hap : a = p <;>
      simp_all [updateAssoc, lookupDir]

/-- The empty tree holds no files at any path. -/
theorem filesAt_empty (d : List String) : filesAt FileTree.empty d = [] := by
  cases d <;> simp [FileTree.empty, filesAt, lookupDir]

/-- The empty tree has no directory nodes beyond its root. -/
theorem hasDir_empty (d : List String) : hasDir FileTree.empty d = d.isEmpty := by
  cases d <;> simp [FileTree.empty, hasDir, lookupDir]

/-- Effect of one insertion on the files at any node: exactly the slot
entry of the inserted file is appended at its own directory node. -/
theorem filesAt_insertPath (segs : List String) :
    ∀ (t : FileTree) (f : WFile) (d : List String),
      filesAt (insertPath t segs f) d = filesAt t d ++ (slotEntry segs f d).toList := by
  induction segs with
  | nil =>
    intro t f d
    simp [insertPath, slotEntry, splitInit]
  | cons p tail ih =>
    intro t f d
    obtain ⟨dirs, files⟩ := t
    cases tail with
    | nil =>
      cases d with
      | nil => simp [insertPath, slotEntry, splitInit, filesAt]
      | cons a as =>
        simp only [insertPath, slotEntry, splitInit, filesAt]
        cases lookupDir dirs a <;> simp
    | cons q rest =>
      obtain ⟨r, hr⟩ := Option.isSome_iff_exists.mp (splitInit_some q rest)
      cases d with
      | nil => simp [insertPath, slotEntry, splitInit, hr, filesAt]
      | cons a as =>
        by_cases hap : a = p
        · subst hap
          simp only [insertPath, filesAt, lookupDir_updateAssoc, if_true, ite_true,
            eq_self_iff_true]
          rw [ih]
          cases hld : lookupDir dirs a with
          | some c => simp [hld, slotEntry, splitInit, hr]
          | none => simp [hld, filesAt_empty, slotEntry, splitInit, hr]
        · simp only [insertPath, filesAt, lookupDir_updateAssoc, if_neg hap]
          have hcons : (p :: r.1 = a :: as) = False := by
            simp [Ne.symm hap]
          cases lookupDir dirs a <;>
            simp [slotEntry, splitInit, hr, hcons]

/-- Bool helper: for a non-empty target list, strict-prefix testing
absorbs the emptiness disjunct. -/
theorem isEmpty_or_strictPrefixB (as : List String) (q : String) (rest : List String) :
    (as.isEmpty || strictPrefixB as (q :: rest)) = strictPrefixB as (q :: rest) := by
  cases as <;> simp [strictPrefixB]

/-- Effect of one insertion on directory existence: exactly the strict
prefixes of the inserted segment list become (or stay) present. -/
theorem hasDir_insertPath (segs : List String) :
    ∀ (t : FileTree) (f : WFile) (d : List String),
      hasDir (insertPath t segs f) d = (hasDir t d || strictPrefixB d segs) := by
  induction segs with
  | nil =>
    intro t f d
    cases d <;> simp [insertPath, strictPrefixB, hasDir]
  | cons p tail ih =>
    intro t f d
    obtain ⟨dirs, files⟩ := t
    cases tail with
    | nil =>
      cases d with
      | nil => simp [insertPath, hasDir, strictPrefixB]
      | cons a as =>
        simp only [insertPath, hasDir, strictPrefixB]
        cases lookupDir dirs a <;> simp [strictPrefixB]
    | cons q rest =>
      cases d with
      | nil => simp [insertPath, hasDir, strictPrefixB]
      | cons a as =>
        by_cases hap : a = p
        · subst hap
          simp only [insertPath, hasDir, lookupDir_updateAssoc, if_true, ite_true,
            eq_self_iff_true]
          rw [ih]
          cases hld : lookupDir dirs a with
          | some c => simp [hld, strictPrefixB]
          | none => simp [hld, hasDir_empty, strictPrefixB, isEmpty_or_strictPrefixB]
        · simp only [insertPath, hasDir, lookupDir_updateAssoc, if_neg hap]
          have : (a == p) = false := by simp [hap]
          cases lookupDir dirs a <;> simp [strictPrefixB, this]

/-- Folding a file list into any tree: files at a node. -/
theorem filesAt_build (fs : List WFile) :
    ∀ (t : FileTree) (d : List String),
      filesAt (fs.foldl (fun t f => insertPath t (segsOf f.path) f) t) d =
        filesAt t d ++ fs.filterMap (fun f => slotEntry (segsOf f.path) f d) := by
  induction fs with
  | nil =>
    intro t d
    simp
  | cons f fs ih =>
    intro t d
    rw [List.foldl_cons, ih, filesAt_insertPath, List.filterMap_cons]
    cases h : slotEntry (segsOf f.path) f d <;> simp [h]

/-- Folding a file list into any tree: directory existence. -/
theorem hasDir_build (fs : List WFile) :
    ∀ (t : FileTree) (d : List String),
      hasDir (fs.foldl (fun t f => insertPath t (segsOf f.path) f) t) d =
        (hasDir t d || fs.any (fun f => strictPrefixB d (segsOf f.path))) := by
  induction fs with
  | nil =>
    intro t d
    simp
  | cons f fs ih =>
    intro t d
    rw [List.foldl_cons, ih, hasDir_insertPath]
    simp [Bool.or_assoc]

/-! ## Claim theorems C9 -/

/-- Claim C9, counterexample: a workspace file whose path is `"/"` has
no non-empty segments, so `buildFileTree` drops it entirely — the built
tree is the bare root and the file appears at no node, in particular not
exactly once at the node reached by its (empty) non-empty segment
list. -/
theorem degenerate_path_c9_cex :
    ¬ ((filesAt (buildFileTree [{ path := "/", size := 5, modified := 7 }])
          (segsOf "/")).countP (fun e => e.path == "/") = 1) := by
  decide

/-- Claim C9, amended: in the tree built from any workspace file list, a
directory path names a node exactly when it is the root or a strict
prefix of some file's non-empty segment list (no empty directory is
representable); and the files stored at each node are exactly, in input
order, the entries of those files whose non-empty segment lists split as
that node's path followed by the entry name — so every file with at
least one non-empty segment appears exactly once, at the node reached by
the leading segments of its path, while a file whose path has no
non-empty segments (empty, or separators only) is dropped; leading or
repeated separators never create empty-named nodes. -/
theorem file_tree_structure_c9 :
    ∀ (fs : List WFile) (d : List String),
      hasDir (buildFileTree fs) d =
        (d.isEmpty || fs.any (fun f => strictPrefixB d (segsOf f.path))) ∧
      filesAt (buildFileTree fs) d =
        fs.filterMap (fun f => slotEntry (segsOf f.path) f d) := by
  intro fs d
  constructor
  · rw [buildFileTree, hasDir_build, hasDir_empty]
  · rw [buildFileTree, filesAt_build, filesAt_empty, List.nil_append]
